import Mathlib

/-! Verification of the in-memory matching/ranking engine of the `lume-algo-sesh`
repository (Rust).  The core under `src/core/` is embedded shallowly:

* Rust `f64` arithmetic is modelled by exact real arithmetic (`ℝ`); the
  transcendental functions (`sin`, `cos`, `sqrt`, `exp`, `atan2`) are modelled
  by their mathematical counterparts.  NaN propagation of IEEE floats is not
  modelled; no claim below depends on non-finite values.
* Rust `u8` / `u16` / `usize` are modelled by `ℕ`.  Where the source performs
  machine subtraction or addition on `u8`/`u16` (in `calculate_age_score` and
  `calculate_height_score`), the embedding uses the release-build wrapping
  semantics, made explicit through `u8wrapAdd`/`u8wrapSub` and the `u16`
  analogues; debug builds panic on the same inputs.
* Comparisons on reals are classical; the whole development is therefore a
  `noncomputable section`.

Definitions follow `src/core/distance.rs`, `src/core/filters.rs`,
`src/core/scoring.rs`, `src/core/matcher.rs` and `src/models/domain.rs`.
-/

noncomputable section

open Classical

/-- Degrees to radians, Rust `f64::to_radians`. -/
def toRadians (x : ℝ) : ℝ := x * Real.pi / 180

/-- Rust `f64::atan2` (four-quadrant arctangent), on real numbers.
`atan2 y x` is the angle of the point `(x, y)`; `atan2 0 0 = 0` as in IEEE. -/
def atan2 (y x : ℝ) : ℝ :=
  if 0 < x then Real.arctan (y / x)
  else if x < 0 then
    (if 0 ≤ y then Real.arctan (y / x) + Real.pi else Real.arctan (y / x) - Real.pi)
  else
    (if 0 < y then Real.pi / 2 else if y < 0 then -(Real.pi / 2) else 0)

/-- Rust `EARTH_RADIUS_KM` from `src/core/distance.rs`. -/
def EARTH_RADIUS_KM : ℝ := 6371

/-- Rust `haversine_distance` from `src/core/distance.rs`. -/
def haversine_distance (lat1 lon1 lat2 lon2 : ℝ) : ℝ :=
  let lat1_rad := toRadians lat1
  let lat2_rad := toRadians lat2
  let delta_lat := toRadians (lat2 - lat1)
  let delta_lon := toRadians (lon2 - lon1)
  let a := Real.sin (delta_lat / 2) ^ 2 +
    Real.cos lat1_rad * Real.cos lat2_rad * Real.sin (delta_lon / 2) ^ 2
  let c := 2 * atan2 (Real.sqrt a) (Real.sqrt (1 - a))
  EARTH_RADIUS_KM * c

/-- Rust `BoundingBox` from `src/models/domain.rs`. -/
structure BoundingBox where
  min_lat : ℝ
  max_lat : ℝ
  min_lon : ℝ
  max_lon : ℝ

/-- Rust `calculate_bounding_box` from `src/core/distance.rs`. -/
def calculate_bounding_box (lat lon radius_km : ℝ) : BoundingBox :=
  let lat_delta := radius_km / 111
  let lon_delta := radius_km / (111 * |Real.cos (toRadians lat)|)
  { min_lat := lat - lat_delta
    max_lat := lat + lat_delta
    min_lon := lon - lon_delta
    max_lon := lon + lon_delta }

/-- Rust `is_within_bounding_box` from `src/core/distance.rs` (inclusive on both axes). -/
def is_within_bounding_box (lat lon : ℝ) (bbox : BoundingBox) : Prop :=
  bbox.min_lat ≤ lat ∧ lat ≤ bbox.max_lat ∧ bbox.min_lon ≤ lon ∧ lon ≤ bbox.max_lon

/-- Rust `UserProfile` from `src/models/domain.rs` (the `created_at` timestamp is
modelled opaquely; the core never reads it). -/
structure UserProfile where
  user_id : String
  name : String
  age : ℕ
  height_cm : ℕ
  hair_color : String
  gender : String
  latitude : ℝ
  longitude : ℝ
  is_verified : Option Bool
  is_active : Bool
  is_timeout : Option Bool
  image_file_ids : List String
  description : Option String
  sports_preferences : List String
  created_at : Option ℕ

/-- Rust `UserProfile::verified` from `src/models/domain.rs`: `is_verified.unwrap_or(false)`. -/
def UserProfile.verified (p : UserProfile) : Bool := p.is_verified.getD false

/-- Rust `UserProfile::timeout` from `src/models/domain.rs`: `is_timeout.unwrap_or(false)`. -/
def UserProfile.timeout (p : UserProfile) : Bool := p.is_timeout.getD false

/-- Rust `UserPreferences` from `src/models/domain.rs`. -/
structure UserPreferences where
  user_id : String
  preferred_genders : List String
  min_age : ℕ
  max_age : ℕ
  min_height_cm : ℕ
  max_height_cm : ℕ
  preferred_hair_colors : List String
  preferred_sports : List String
  max_distance_km : ℕ
  latitude : ℝ
  longitude : ℝ

/-- Rust `CandidateQuery` from `src/models/domain.rs`. -/
structure CandidateQuery where
  bounding_box : BoundingBox
  preferred_genders : List String
  min_age : ℕ
  max_age : ℕ
  min_height_cm : ℕ
  max_height_cm : ℕ
  exclude_user_ids : List String
  limit : ℕ

/-- Rust `ScoringWeights` from `src/models/domain.rs`. -/
structure ScoringWeights where
  distance : ℝ
  age : ℝ
  sports : ℝ
  verified : ℝ
  height : ℝ

/-- Rust `ScoringWeights::default` from `src/models/domain.rs`. -/
def ScoringWeights.default : ScoringWeights :=
  { distance := 0.35, age := 0.20, sports := 0.25, verified := 0.10, height := 0.10 }

/-- Rust `ScoredMatch` from `src/models/domain.rs`. -/
structure ScoredMatch where
  user_id : String
  name : String
  age : ℕ
  height_cm : ℕ
  hair_color : String
  gender : String
  distance_km : ℝ
  match_score : ℝ
  shared_sports : List String
  is_verified : Bool
  image_file_ids : List String
  description : Option String

/-- Wrapping `u8` addition (Rust release semantics of `a + b` on `u8`). -/
def u8wrapAdd (a b : ℕ) : ℕ := (a + b) % 256

/-- Wrapping `u8` subtraction (Rust release semantics of `a - b` on `u8`,
for operands below 256). -/
def u8wrapSub (a b : ℕ) : ℕ := (a + 256 - b) % 256

/-- Wrapping `u16` addition (Rust release semantics of `a + b` on `u16`). -/
def u16wrapAdd (a b : ℕ) : ℕ := (a + b) % 65536

/-- Wrapping `u16` subtraction (Rust release semantics of `a - b` on `u16`,
for operands below 65536). -/
def u16wrapSub (a b : ℕ) : ℕ := (a + 65536 - b) % 65536

/-- Rust `calculate_distance_score` from `src/core/scoring.rs`. -/
def calculate_distance_score (distance_km : ℝ) (max_distance_km : ℕ) : ℝ :=
  let max := (max_distance_km : ℝ)
  if distance_km ≥ max then 0
  else Real.exp (-distance_km / (max * 0.5))

/-- Rust `calculate_age_score` from `src/core/scoring.rs`.  The source computes
`(min_age + max_age) as f64` and `(max_age - min_age) as f64` on `u8`, so the
machine addition/subtraction wraps (release) before the cast to `f64`. -/
def calculate_age_score (age min_age max_age : ℕ) : ℝ :=
  let mid := (u8wrapAdd min_age max_age : ℝ) / 2
  let range := (u8wrapSub max_age min_age : ℝ)
  let age_f := (age : ℝ)
  if range ≤ 0 then 1
  else
    let deviation := |age_f - mid|
    let normalized_deviation := deviation / (range / 2)
    1 - min normalized_deviation 1

/-- Rust `calculate_height_score` from `src/core/scoring.rs`, with `u16` machine
arithmetic wrapping as in `calculate_age_score`. -/
def calculate_height_score (height_cm min_height_cm max_height_cm : ℕ) : ℝ :=
  let mid := (u16wrapAdd min_height_cm max_height_cm : ℝ) / 2
  let range := (u16wrapSub max_height_cm min_height_cm : ℝ)
  let height_f := (height_cm : ℝ)
  if range ≤ 0 then 1
  else
    let deviation := |height_f - mid|
    let normalized_deviation := deviation / (range / 2)
    1 - min normalized_deviation 1

/-- Rust `calculate_preference_score` from `src/core/filters.rs`. -/
def calculate_preference_score (profile : UserProfile) (preferences : UserPreferences) :
    ℝ × List String :=
  let hair_points : ℝ :=
    if preferences.preferred_hair_colors = [] ∨
        profile.hair_color ∈ preferences.preferred_hair_colors then 1 else 0
  let shared_sports := profile.sports_preferences.filter
    (fun sport => decide (sport ∈ preferences.preferred_sports))
  let shared_count : ℝ := shared_sports.length
  let sports_score : ℝ := if 0 < shared_count then min shared_count 5 / 5 * 2 else 0
  let score := hair_points + sports_score
  let max_score : ℝ := 1 + 2
  let normalized := if 0 < max_score then score / max_score else 0
  (normalized, shared_sports)

/-- Rust `matches_demographics` from `src/core/filters.rs`. -/
def matches_demographics (profile : UserProfile) (preferences : UserPreferences) : Prop :=
  profile.is_active = true ∧ profile.timeout = false ∧
  (preferences.preferred_genders = [] ∨ profile.gender ∈ preferences.preferred_genders) ∧
  preferences.min_age ≤ profile.age ∧ profile.age ≤ preferences.max_age ∧
  preferences.min_height_cm ≤ profile.height_cm ∧
  profile.height_cm ≤ preferences.max_height_cm

/-- Rust `matches_query_constraints` from `src/core/filters.rs`. -/
def matches_query_constraints (profile : UserProfile) (query : CandidateQuery) : Prop :=
  is_within_bounding_box profile.latitude profile.longitude query.bounding_box ∧
  profile.user_id ∉ query.exclude_user_ids ∧
  query.min_age ≤ profile.age ∧ profile.age ≤ query.max_age ∧
  query.min_height_cm ≤ profile.height_cm ∧ profile.height_cm ≤ query.max_height_cm ∧
  (query.preferred_genders = [] ∨ profile.gender ∈ query.preferred_genders)

/-- Rust `calculate_match_score` from `src/core/scoring.rs`. -/
def calculate_match_score (profile : UserProfile) (preferences : UserPreferences)
    (weights : ScoringWeights) : ℝ × List String :=
  let distance_km := haversine_distance preferences.latitude preferences.longitude
    profile.latitude profile.longitude
  let distance_score := calculate_distance_score distance_km preferences.max_distance_km
  let age_score := calculate_age_score profile.age preferences.min_age preferences.max_age
  let pref := calculate_preference_score profile preferences
  let verified_score : ℝ := if profile.verified then 1 else 0
  let height_score := calculate_height_score profile.height_cm preferences.min_height_cm
    preferences.max_height_cm
  let total_score := (distance_score * weights.distance + age_score * weights.age +
    pref.1 * weights.sports + verified_score * weights.verified +
    height_score * weights.height) * 100
  (max (min total_score 100) 0, pref.2)

/-- Rust `MatchResult` from `src/core/matcher.rs`. -/
structure MatchResult where
  «matches» : List ScoredMatch
  total_candidates : ℕ

/-- Rust `Matcher` from `src/core/matcher.rs`. -/
structure Matcher where
  weights : ScoringWeights

/-- The `ScoredMatch` record built inline in `Matcher::find_matches`
(`src/core/matcher.rs`, lines 101–114) for a surviving candidate. -/
def scoredMatchOf (preferences : UserPreferences) (weights : ScoringWeights)
    (profile : UserProfile) : ScoredMatch :=
  { user_id := profile.user_id
    name := profile.name
    age := profile.age
    height_cm := profile.height_cm
    hair_color := profile.hair_color
    gender := profile.gender
    distance_km := haversine_distance preferences.latitude preferences.longitude
      profile.latitude profile.longitude
    match_score := (calculate_match_score profile preferences weights).1
    shared_sports := (calculate_match_score profile preferences weights).2
    is_verified := profile.verified
    image_file_ids := profile.image_file_ids
    description := profile.description }

/-- The comparator of the final sort in `Matcher::find_matches`: `a` may come
before `b` iff the Rust comparator (descending score, then ascending distance)
does not answer `Greater` on `(a, b)`. -/
def matchLE (a b : ScoredMatch) : Prop :=
  b.match_score < a.match_score ∨
    (a.match_score = b.match_score ∧ a.distance_km ≤ b.distance_km)

/-- The Bool form of `matchLE` used by the sort (classical decidability
stands in for the total order on IEEE doubles). -/
def matchLEb (a b : ScoredMatch) : Bool := decide (matchLE a b)

/-- Rust `Matcher::find_matches` from `src/core/matcher.rs`.  The stable
`sort_by` is modelled by the stable `List.mergeSort`. -/
def Matcher.find_matches (m : Matcher) (preferences : UserPreferences)
    (candidates : List UserProfile) (limit : ℕ) : MatchResult :=
  let total_candidates := candidates.length
  let bounding_box := calculate_bounding_box preferences.latitude preferences.longitude
    (preferences.max_distance_km : ℝ)
  let query : CandidateQuery :=
    { bounding_box := bounding_box
      preferred_genders := preferences.preferred_genders
      min_age := preferences.min_age
      max_age := preferences.max_age
      min_height_cm := preferences.min_height_cm
      max_height_cm := preferences.max_height_cm
      exclude_user_ids := [preferences.user_id]
      limit := limit }
  let scored_matches :=
    ((candidates.filter
        (fun profile => decide (matches_query_constraints profile query))).filter
      (fun profile => decide (matches_demographics profile preferences))).filterMap
      (fun profile =>
        if 5 ≤ (calculate_match_score profile preferences m.weights).1 then
          some (scoredMatchOf preferences m.weights profile)
        else none)
  let sorted := scored_matches.mergeSort matchLEb
  { «matches» := sorted.take limit, total_candidates := total_candidates }

theorem haversine_self (lat lon : ℝ) : haversine_distance lat lon lat lon = 0 := by
  simp [haversine_distance, toRadians, atan2, Real.arctan_zero, EARTH_RADIUS_KM]

theorem haversine_symm (lat1 lon1 lat2 lon2 : ℝ) :
    haversine_distance lat1 lon1 lat2 lon2 = haversine_distance lat2 lon2 lat1 lon1 := by
  have h1 : toRadians (lat1 - lat2) / 2 = -(toRadians (lat2 - lat1) / 2) := by
    simp [toRadians]; ring
  have h2 : toRadians (lon1 - lon2) / 2 = -(toRadians (lon2 - lon1) / 2) := by
    simp [toRadians]; ring
  simp only [haversine_distance, h1, h2, Real.sin_neg, neg_sq]
  ring_nf

theorem atan2_nonneg {y x : ℝ} (hy : 0 ≤ y) : 0 ≤ atan2 y x := by
  unfold atan2
  split
  · have : 0 ≤ y / x := div_nonneg hy (le_of_lt (by assumption))
    calc (0:ℝ) = Real.arctan 0 := Real.arctan_zero.symm
    _ ≤ Real.arctan (y / x) := Real.arctan_strictMono.monotone this
  · split
    · have h1 : -(Real.pi / 2) < Real.arctan (y / x) := Real.neg_pi_div_two_lt_arctan _
      have h2 : 0 < Real.pi := Real.pi_pos
      linarith
    · split
      · positivity
      · rw [if_neg (not_lt.mpr hy)]

theorem haversine_nonneg (lat1 lon1 lat2 lon2 : ℝ) :
    0 ≤ haversine_distance lat1 lon1 lat2 lon2 := by
  unfold haversine_distance EARTH_RADIUS_KM
  have h := atan2_nonneg (x := Real.sqrt (1 - (Real.sin (toRadians (lat2 - lat1) / 2) ^ 2 +
    Real.cos (toRadians lat1) * Real.cos (toRadians lat2) *
      Real.sin (toRadians (lon2 - lon1) / 2) ^ 2)))
    (Real.sqrt_nonneg (Real.sin (toRadians (lat2 - lat1) / 2) ^ 2 +
      Real.cos (toRadians lat1) * Real.cos (toRadians lat2) *
        Real.sin (toRadians (lon2 - lon1) / 2) ^ 2))
  positivity

/-- Claim C7: the haversine distance is symmetric in its two points and is
zero (exactly, in real arithmetic) for identical points. -/
theorem haversine_symm_and_self_zero (lat1 lon1 lat2 lon2 : ℝ) :
    haversine_distance lat1 lon1 lat2 lon2 = haversine_distance lat2 lon2 lat1 lon1 ∧
    haversine_distance lat1 lon1 lat1 lon1 = 0 :=
  ⟨haversine_symm lat1 lon1 lat2 lon2, haversine_self lat1 lon1⟩

/-- Claim C8: for a nonnegative radius, the bounding box contains its center
point, and its latitude span equals `2 * radius / 111` degrees, hence lies
within the claimed ±5% tolerance. -/
theorem bounding_box_contains_center_and_lat_span (lat lon radius_km : ℝ)
    (hr : 0 ≤ radius_km) :
    is_within_bounding_box lat lon (calculate_bounding_box lat lon radius_km) ∧
    (calculate_bounding_box lat lon radius_km).max_lat -
        (calculate_bounding_box lat lon radius_km).min_lat = 2 * radius_km / 111 ∧
    |(calculate_bounding_box lat lon radius_km).max_lat -
        (calculate_bounding_box lat lon radius_km).min_lat - 2 * radius_km / 111| ≤
      5 / 100 * (2 * radius_km / 111) := by
  have hlat : 0 ≤ radius_km / 111 := by positivity
  have hlon : 0 ≤ radius_km / (111 * |Real.cos (toRadians lat)|) := by positivity
  refine ⟨⟨?_, ?_, ?_, ?_⟩, ?_, ?_⟩
  · simp only [calculate_bounding_box]; linarith
  · simp only [calculate_bounding_box]; linarith
  · simp only [calculate_bounding_box]; linarith
  · simp only [calculate_bounding_box]; linarith
  · simp only [calculate_bounding_box]; ring
  · simp only [calculate_bounding_box]
    have h : lat + radius_km / 111 - (lat - radius_km / 111) - 2 * radius_km / 111 = 0 := by
      ring
    rw [h, abs_zero]
    positivity

/-- Witness for C8 at the concrete center (40.7128, -74.0060), radius 10 km. -/
theorem bounding_box_contains_center_and_lat_span_witness :
    is_within_bounding_box 40.7128 (-74.0060)
        (calculate_bounding_box 40.7128 (-74.0060) 10) ∧
    (calculate_bounding_box 40.7128 (-74.0060) 10).max_lat -
        (calculate_bounding_box 40.7128 (-74.0060) 10).min_lat = 2 * 10 / 111 ∧
    |(calculate_bounding_box 40.7128 (-74.0060) 10).max_lat -
        (calculate_bounding_box 40.7128 (-74.0060) 10).min_lat - 2 * 10 / 111| ≤
      5 / 100 * (2 * 10 / 111) :=
  bounding_box_contains_center_and_lat_span 40.7128 (-74.0060) 10 (by norm_num)

theorem calculate_distance_score_nonneg (d : ℝ) (m : ℕ) :
    0 ≤ calculate_distance_score d m := by
  simp only [calculate_distance_score]
  split
  · exact le_refl 0
  · exact le_of_lt (Real.exp_pos _)

theorem calculate_distance_score_le_one {d : ℝ} (hd : 0 ≤ d) (m : ℕ) :
    calculate_distance_score d m ≤ 1 := by
  simp only [calculate_distance_score]
  split
  · norm_num
  · next h =>
    rw [not_le] at h
    have hm : (0:ℝ) < (m:ℝ) := lt_of_le_of_lt hd h
    rw [Real.exp_le_one_iff]
    have : 0 ≤ d / ((m:ℝ) * 0.5) := by positivity
    rw [neg_div]
    linarith

theorem calculate_age_score_bounds (age min_age max_age : ℕ) :
    0 ≤ calculate_age_score age min_age max_age ∧
      calculate_age_score age min_age max_age ≤ 1 := by
  simp only [calculate_age_score]
  split
  · norm_num
  · next h =>
    rw [not_le] at h
    have hdev : 0 ≤ |(age:ℝ) - (u8wrapAdd min_age max_age : ℝ) / 2| := abs_nonneg _
    have hq : 0 ≤ |(age:ℝ) - (u8wrapAdd min_age max_age : ℝ) / 2| /
        ((u8wrapSub max_age min_age : ℝ) / 2) := by positivity
    constructor
    · have : min (|(age:ℝ) - (u8wrapAdd min_age max_age : ℝ) / 2| /
          ((u8wrapSub max_age min_age : ℝ) / 2)) 1 ≤ 1 := min_le_right _ _
      linarith
    · have : 0 ≤ min (|(age:ℝ) - (u8wrapAdd min_age max_age : ℝ) / 2| /
          ((u8wrapSub max_age min_age : ℝ) / 2)) 1 := le_min hq (by norm_num)
      linarith

theorem calculate_height_score_bounds (h mn mx : ℕ) :
    0 ≤ calculate_height_score h mn mx ∧ calculate_height_score h mn mx ≤ 1 := by
  simp only [calculate_height_score]
  split
  · norm_num
  · next hr =>
    rw [not_le] at hr
    have hq : 0 ≤ |(h:ℝ) - (u16wrapAdd mn mx : ℝ) / 2| /
        ((u16wrapSub mx mn : ℝ) / 2) := by positivity
    constructor
    · have : min (|(h:ℝ) - (u16wrapAdd mn mx : ℝ) / 2| /
          ((u16wrapSub mx mn : ℝ) / 2)) 1 ≤ 1 := min_le_right _ _
      linarith
    · have : 0 ≤ min (|(h:ℝ) - (u16wrapAdd mn mx : ℝ) / 2| /
          ((u16wrapSub mx mn : ℝ) / 2)) 1 := le_min hq (by norm_num)
      linarith

theorem calculate_preference_score_bounds (p : UserProfile) (prefs : UserPreferences) :
    0 ≤ (calculate_preference_score p prefs).1 ∧
      (calculate_preference_score p prefs).1 ≤ 1 := by
  simp only [calculate_preference_score]
  set n : ℝ := ((p.sports_preferences.filter
    (fun sport => decide (sport ∈ prefs.preferred_sports))).length : ℝ) with hn
  have hn0 : 0 ≤ n := by rw [hn]; positivity
  have hhair : (0:ℝ) ≤ (if prefs.preferred_hair_colors = [] ∨
      p.hair_color ∈ prefs.preferred_hair_colors then (1:ℝ) else 0) ∧
      (if prefs.preferred_hair_colors = [] ∨
      p.hair_color ∈ prefs.preferred_hair_colors then (1:ℝ) else 0) ≤ 1 := by
    split <;> norm_num
  have hsports : (0:ℝ) ≤ (if 0 < n then min n 5 / 5 * 2 else 0) ∧
      (if 0 < n then min n 5 / 5 * 2 else 0) ≤ 2 := by
    split
    · constructor
      · have : 0 ≤ min n 5 := le_min hn0 (by norm_num)
        positivity
      · have : min n 5 ≤ 5 := min_le_right _ _
        have h0 : 0 ≤ min n 5 := le_min hn0 (by norm_num)
        nlinarith
    · norm_num
  rw [if_pos (by norm_num : (0:ℝ) < 1 + 2)]
  constructor
  · have := hhair.1; have := hsports.1; positivity
  · have := hhair.2; have := hsports.2
    have h3 : (0:ℝ) < 3 := by norm_num
    rw [div_le_one (by norm_num : (0:ℝ) < 1 + 2)]
    linarith

/-- Claim C4: for every profile, preferences and weights the match score lies
in [0, 100] and equals the weighted sum of the five sub-scores times 100,
clamped to [0, 100]. -/
theorem match_score_in_range_and_clamped (p : UserProfile) (prefs : UserPreferences)
    (w : ScoringWeights) :
    0 ≤ (calculate_match_score p prefs w).1 ∧ (calculate_match_score p prefs w).1 ≤ 100 ∧
    (calculate_match_score p prefs w).1 =
      max (min ((calculate_distance_score (haversine_distance prefs.latitude prefs.longitude
          p.latitude p.longitude) prefs.max_distance_km * w.distance +
        calculate_age_score p.age prefs.min_age prefs.max_age * w.age +
        (calculate_preference_score p prefs).1 * w.sports +
        (if p.verified then (1:ℝ) else 0) * w.verified +
        calculate_height_score p.height_cm prefs.min_height_cm prefs.max_height_cm *
          w.height) * 100) 100) 0 :=
  ⟨le_max_right _ _, max_le (min_le_right _ _) (by norm_num), rfl⟩

/-- Claim C5: the preference score is (hair term + sports term) / 3 with the
stated hair and sports terms, the shared list is the candidate's sports that
occur among the preferred sports, and the score lies in [0, 1]. -/
theorem preference_score_formula (p : UserProfile) (prefs : UserPreferences) :
    (calculate_preference_score p prefs).2 =
      p.sports_preferences.filter (fun s => decide (s ∈ prefs.preferred_sports)) ∧
    (calculate_preference_score p prefs).1 =
      ((if prefs.preferred_hair_colors = [] ∨ p.hair_color ∈ prefs.preferred_hair_colors
          then (1:ℝ) else 0) +
        min ((p.sports_preferences.filter
            (fun s => decide (s ∈ prefs.preferred_sports))).length : ℝ) 5 / 5 * 2) / 3 ∧
    0 ≤ (calculate_preference_score p prefs).1 ∧
    (calculate_preference_score p prefs).1 ≤ 1 := by
  refine ⟨rfl, ?_, calculate_preference_score_bounds p prefs⟩
  simp only [calculate_preference_score]
  rw [if_pos (by norm_num : (0:ℝ) < 1 + 2)]
  rcases Nat.eq_zero_or_pos (p.sports_preferences.filter
      (fun s => decide (s ∈ prefs.preferred_sports))).length with h0 | hpos
  · rw [h0]
    norm_num
  · have hc : (0:ℝ) < ((p.sports_preferences.filter
        (fun s => decide (s ∈ prefs.preferred_sports))).length : ℝ) := by
      exact_mod_cast hpos
    rw [if_pos hc]
    norm_num

/-- Claim C2 (code bug): on the degenerate range min_age = 30 > max_age = 20
the unsigned subtraction `max_age - min_age` wraps (release) or panics
(debug); with wrapping semantics the sub-score at age 30 is 1 - 5/123, not
the 1.0 the specification requires, and likewise for the height score. -/
theorem age_score_degenerate_range_wraps :
    calculate_age_score 30 30 20 = 1 - 5 / 123 ∧ (1 - 5 / 123 : ℝ) ≠ 1 ∧
    calculate_height_score 175 180 160 = 1 - 5 / 32758 ∧ (1 - 5 / 32758 : ℝ) ≠ 1 := by
  refine ⟨?_, by norm_num, ?_, by norm_num⟩
  · simp only [calculate_age_score, u8wrapAdd, u8wrapSub]
    norm_num
  · simp only [calculate_height_score, u16wrapAdd, u16wrapSub]
    norm_num

/-- Claim C9: a profile with `is_verified` absent scores exactly like an
unverified profile (sub-score 0, `is_verified` false in the built record), and
a profile with `is_timeout` absent passes `matches_demographics` exactly like
one that is not timed out. -/
theorem missing_flags_default_false (p : UserProfile) (prefs : UserPreferences)
    (w : ScoringWeights) :
    calculate_match_score { p with is_verified := none } prefs w =
      calculate_match_score { p with is_verified := some false } prefs w ∧
    (if ({ p with is_verified := none } : UserProfile).verified then (1:ℝ) else 0) = 0 ∧
    (scoredMatchOf prefs w { p with is_verified := none }).is_verified = false ∧
    (matches_demographics { p with is_timeout := none } prefs ↔
      matches_demographics { p with is_timeout := some false } prefs) :=
  ⟨rfl, rfl, rfl, Iff.rfl⟩

theorem matchLE_trans (a b c : ScoredMatch) (h1 : matchLE a b) (h2 : matchLE b c) :
    matchLE a c := by
  rcases h1 with h1 | ⟨h1e, h1d⟩ <;> rcases h2 with h2 | ⟨h2e, h2d⟩
  · exact Or.inl (lt_trans h2 h1)
  · exact Or.inl (lt_of_le_of_lt (le_of_eq h2e.symm) h1)
  · exact Or.inl (lt_of_lt_of_le h2 (le_of_eq h1e.symm))
  · exact Or.inr ⟨h1e.trans h2e, le_trans h1d h2d⟩

theorem matchLE_total (a b : ScoredMatch) : matchLE a b ∨ matchLE b a := by
  rcases lt_trichotomy a.match_score b.match_score with h | h | h
  · exact Or.inr (Or.inl h)
  · rcases le_total a.distance_km b.distance_km with hd | hd
    · exact Or.inl (Or.inr ⟨h, hd⟩)
    · exact Or.inr (Or.inr ⟨h.symm, hd⟩)
  · exact Or.inl (Or.inl h)

theorem mem_find_matches {m : Matcher} {prefs : UserPreferences}
    {cands : List UserProfile} {limit : ℕ} {sm : ScoredMatch}
    (h : sm ∈ (m.find_matches prefs cands limit).«matches») :
    ∃ p ∈ cands, 5 ≤ (calculate_match_score p prefs m.weights).1 ∧
      sm = scoredMatchOf prefs m.weights p := by
  simp only [Matcher.find_matches] at h
  have h1 := (List.take_sublist _ _).subset h
  have h2 := (List.mergeSort_perm _ _).subset h1
  rw [List.mem_filterMap] at h2
  obtain ⟨p, hp, hf⟩ := h2
  rw [List.mem_filter] at hp
  obtain ⟨hp, -⟩ := hp
  rw [List.mem_filter] at hp
  obtain ⟨hp, -⟩ := hp
  by_cases hs : 5 ≤ (calculate_match_score p prefs m.weights).1
  · rw [if_pos hs] at hf
    exact ⟨p, hp, hs, (Option.some_inj.mp hf).symm⟩
  · rw [if_neg hs] at hf
    cases hf

/-- Claim C3: the result of `find_matches` has at most `limit` entries, is
sorted non-increasing by score with ties ordered non-decreasing by distance,
and `total_candidates` is the number of input candidates before filtering. -/
theorem find_matches_limit_sorted_total (m : Matcher) (prefs : UserPreferences)
    (cands : List UserProfile) (limit : ℕ) :
    (m.find_matches prefs cands limit).«matches».length ≤ limit ∧
    (m.find_matches prefs cands limit).«matches».Pairwise matchLE ∧
    (m.find_matches prefs cands limit).total_candidates = cands.length := by
  refine ⟨?_, ?_, rfl⟩
  · simp only [Matcher.find_matches]
    rw [List.length_take]
    exact min_le_left _ _
  · simp only [Matcher.find_matches]
    have htrans : ∀ a b c : ScoredMatch,
        matchLEb a b = true → matchLEb b c = true → matchLEb a c = true := by
      intro a b c hab hbc
      simp only [matchLEb, decide_eq_true_iff] at *
      exact matchLE_trans a b c hab hbc
    have htotal : ∀ a b : ScoredMatch, (matchLEb a b || matchLEb b a) = true := by
      intro a b
      simp only [matchLEb, Bool.or_eq_true, decide_eq_true_iff]
      exact matchLE_total a b
    have hpair := @List.sorted_mergeSort ScoredMatch matchLEb htrans htotal
    refine ((hpair _).sublist (List.take_sublist limit _)).imp ?_
    intro a b hab
    simp only [matchLEb, decide_eq_true_iff] at hab
    exact hab

/-- Claim C10: every entry of the result list is built from one input
candidate, with its identity and display fields copied unchanged. -/
theorem find_matches_entries_from_candidates (m : Matcher) (prefs : UserPreferences)
    (cands : List UserProfile) (limit : ℕ) (sm : ScoredMatch)
    (h : sm ∈ (m.find_matches prefs cands limit).«matches») :
    ∃ p ∈ cands, sm.user_id = p.user_id ∧ sm.name = p.name ∧ sm.age = p.age ∧
      sm.height_cm = p.height_cm ∧ sm.hair_color = p.hair_color ∧
      sm.gender = p.gender ∧ sm.image_file_ids = p.image_file_ids ∧
      sm.description = p.description := by
  obtain ⟨p, hp, -, rfl⟩ := mem_find_matches h
  exact ⟨p, hp, rfl, rfl, rfl, rfl, rfl, rfl, rfl, rfl⟩


/-- Preferences of a requester at (0, 0) with a 20000 km search radius,
used to exercise the far-candidate behaviour of the pipeline. -/
def farPreferences : UserPreferences :=
  { user_id := "seeker", preferred_genders := [], min_age := 20, max_age := 30,
    min_height_cm := 160, max_height_cm := 180, preferred_hair_colors := [],
    preferred_sports := [], max_distance_km := 20000, latitude := 0, longitude := 0 }

/-- A candidate on the equator at longitude 180°, i.e. 6371·π ≈ 20015 km from
the requester — beyond the 20000 km cap yet inside the bounding box. -/
def farCandidate : UserProfile :=
  { user_id := "far", name := "Far", age := 25, height_cm := 170,
    hair_color := "brown", gender := "female", latitude := 0, longitude := 180,
    is_verified := some true, is_active := true, is_timeout := some false,
    image_file_ids := [], description := none, sports_preferences := [],
    created_at := none }

theorem haversine_zero_meridian : haversine_distance 0 0 0 180 = 6371 * Real.pi := by
  have h1 : toRadians (180 - 0) / 2 = Real.pi / 2 := by
    simp only [toRadians]; ring
  simp [haversine_distance, EARTH_RADIUS_KM, h1, toRadians, atan2, Real.sin_pi_div_two]
  ring

theorem pi_far_bound : (20000:ℝ) < 6371 * Real.pi := by
  nlinarith [Real.pi_gt_d6]


theorem far_distance_score_zero :
    calculate_distance_score (haversine_distance farPreferences.latitude
      farPreferences.longitude farCandidate.latitude farCandidate.longitude)
      farPreferences.max_distance_km = 0 := by
  show calculate_distance_score (haversine_distance 0 0 0 180) 20000 = 0
  rw [haversine_zero_meridian]
  simp only [calculate_distance_score]
  rw [if_pos]
  push_cast
  linarith [pi_far_bound]

theorem far_score :
    (calculate_match_score farCandidate farPreferences ScoringWeights.default).1 = 145 / 3 := by
  simp only [calculate_match_score]
  rw [far_distance_score_zero]
  simp only [farCandidate, farPreferences, ScoringWeights.default]
  norm_num [calculate_age_score, calculate_height_score, calculate_preference_score,
    u8wrapAdd, u8wrapSub, u16wrapAdd, u16wrapSub, UserProfile.verified]


set_option maxHeartbeats 1000000

theorem far_pipeline :
    ((Matcher.mk ScoringWeights.default).find_matches farPreferences [farCandidate]
        10).«matches» =
      [scoredMatchOf farPreferences ScoringWeights.default farCandidate] := by
  have hscore : 5 ≤ (calculate_match_score farCandidate farPreferences
      ScoringWeights.default).1 := by
    rw [far_score]; norm_num
  have hd : matches_demographics farCandidate farPreferences := by
    refine ⟨rfl, rfl, Or.inl rfl, ?_, ?_, ?_, ?_⟩ <;> norm_num [farCandidate, farPreferences]
  have hq : matches_query_constraints farCandidate
      { bounding_box :=
          calculate_bounding_box farPreferences.latitude farPreferences.longitude
            ↑farPreferences.max_distance_km,
        preferred_genders := farPreferences.preferred_genders,
        min_age := farPreferences.min_age,
        max_age := farPreferences.max_age,
        min_height_cm := farPreferences.min_height_cm,
        max_height_cm := farPreferences.max_height_cm,
        exclude_user_ids := [farPreferences.user_id],
        limit := 10 } := by
    norm_num [matches_query_constraints, is_within_bounding_box, calculate_bounding_box,
      toRadians, farCandidate, farPreferences]
    decide
  simp only [Matcher.find_matches, List.filter_cons, List.filter_nil,
    List.filterMap_cons, List.filterMap_nil, decide_eq_true_eq, hd, hscore, hq,
    if_true, List.mergeSort_singleton]
  rfl


/-- Claim C1 counterexample: the candidate at longitude 180° lies strictly
beyond the 20000 km `max_distance_km` (its haversine distance is 6371·π km),
yet `find_matches` returns it, because it is inside the over-approximating
bounding box and its non-distance factors keep the score above the cutoff. -/
theorem far_candidate_beyond_cap_included :
    (farPreferences.max_distance_km : ℝ) <
      haversine_distance farPreferences.latitude farPreferences.longitude
        farCandidate.latitude farCandidate.longitude ∧
    ((Matcher.mk ScoringWeights.default).find_matches farPreferences [farCandidate]
        10).«matches» =
      [scoredMatchOf farPreferences ScoringWeights.default farCandidate] := by
  constructor
  · show ((20000:ℕ):ℝ) < haversine_distance 0 0 0 180
    rw [haversine_zero_meridian]
    push_cast
    exact pi_far_bound
  · exact far_pipeline

/-- Claim C1 (amended): a candidate at haversine distance at or beyond
`max_distance_km` receives distance sub-score 0, and is absent from the
result whenever its remaining weighted sub-scores contribute a total score
below the 5.0 minimum cutoff. -/
theorem beyond_cap_excluded_when_rest_below_cutoff
    (m : Matcher) (prefs : UserPreferences) (cands : List UserProfile)
    (limit : ℕ) (p : UserProfile) (_hp : p ∈ cands)
    (hfar : (prefs.max_distance_km : ℝ) ≤
      haversine_distance prefs.latitude prefs.longitude p.latitude p.longitude)
    (hrest : (calculate_age_score p.age prefs.min_age prefs.max_age * m.weights.age +
        (calculate_preference_score p prefs).1 * m.weights.sports +
        (if p.verified then (1:ℝ) else 0) * m.weights.verified +
        calculate_height_score p.height_cm prefs.min_height_cm prefs.max_height_cm *
          m.weights.height) * 100 < 5) :
    calculate_distance_score (haversine_distance prefs.latitude prefs.longitude
      p.latitude p.longitude) prefs.max_distance_km = 0 ∧
    ∀ sm ∈ (m.find_matches prefs cands limit).«matches»,
      sm ≠ scoredMatchOf prefs m.weights p := by
  have hds : calculate_distance_score (haversine_distance prefs.latitude prefs.longitude
      p.latitude p.longitude) prefs.max_distance_km = 0 := by
    simp only [calculate_distance_score]
    rw [if_pos hfar]
  refine ⟨hds, ?_⟩
  intro sm hsm heq
  have hscore : (calculate_match_score p prefs m.weights).1 < 5 := by
    simp only [calculate_match_score]
    rw [hds]
    refine max_lt (lt_of_le_of_lt (min_le_left _ _) ?_) (by norm_num)
    nlinarith [hrest]
  obtain ⟨q, hq, hqs, rfl⟩ := mem_find_matches hsm
  have hcongr := congrArg ScoredMatch.match_score heq
  simp only [scoredMatchOf] at hcongr
  rw [hcongr] at hqs
  linarith

/-- Preferences like `farPreferences` but accepting only blonde hair, so
that a brown-haired candidate scores 0 on every non-distance factor. -/
def dullPreferences : UserPreferences :=
  { user_id := "seeker", preferred_genders := [], min_age := 20, max_age := 30,
    min_height_cm := 160, max_height_cm := 180, preferred_hair_colors := ["blonde"],
    preferred_sports := [], max_distance_km := 20000, latitude := 0, longitude := 0 }

/-- An unverified candidate at longitude 180° sitting at the edges of the age
and height ranges, with no shared sports and non-preferred hair. -/
def dullCandidate : UserProfile :=
  { user_id := "far2", name := "Far2", age := 20, height_cm := 160,
    hair_color := "brown", gender := "female", latitude := 0, longitude := 180,
    is_verified := some false, is_active := true, is_timeout := some false,
    image_file_ids := [], description := none, sports_preferences := [],
    created_at := none }

/-- Witness for the amended C1 at a concrete beyond-cap candidate whose
non-distance factors are all zero. -/
theorem beyond_cap_excluded_when_rest_below_cutoff_witness :
    calculate_distance_score (haversine_distance dullPreferences.latitude
      dullPreferences.longitude dullCandidate.latitude dullCandidate.longitude)
      dullPreferences.max_distance_km = 0 ∧
    ∀ sm ∈ ((Matcher.mk ScoringWeights.default).find_matches dullPreferences
        [dullCandidate] 10).«matches»,
      sm ≠ scoredMatchOf dullPreferences ScoringWeights.default dullCandidate :=
  beyond_cap_excluded_when_rest_below_cutoff (Matcher.mk ScoringWeights.default)
    dullPreferences [dullCandidate] 10 dullCandidate (by simp)
    (by show ((20000:ℕ):ℝ) ≤ haversine_distance 0 0 0 180
        rw [haversine_zero_meridian]
        push_cast
        linarith [pi_far_bound])
    (by norm_num [calculate_age_score, calculate_height_score, calculate_preference_score,
        u8wrapAdd, u8wrapSub, u16wrapAdd, u16wrapSub, UserProfile.verified,
        dullCandidate, dullPreferences, ScoringWeights.default]
        rw [if_neg (by decide : ¬("brown":String) = "blonde")]
        norm_num)


/-- Weights identical to the defaults except that the verification weight
is zero. -/
def zeroVerifiedWeights : ScoringWeights :=
  { distance := 0.35, age := 0.20, sports := 0.25, verified := 0, height := 0.10 }

/-- Preferences of a requester at (0, 0) with a 50 km radius. -/
def nearPreferences : UserPreferences :=
  { user_id := "seeker", preferred_genders := [], min_age := 20, max_age := 30,
    min_height_cm := 160, max_height_cm := 180, preferred_hair_colors := [],
    preferred_sports := [], max_distance_km := 50, latitude := 0, longitude := 0 }

/-- A verified candidate co-located with the requester at (0, 0). -/
def nearCandidate : UserProfile :=
  { user_id := "near", name := "Near", age := 25, height_cm := 170,
    hair_color := "brown", gender := "female", latitude := 0, longitude := 0,
    is_verified := some true, is_active := true, is_timeout := some false,
    image_file_ids := [], description := none, sports_preferences := [],
    created_at := none }

/-- Claim C6 counterexample: with a zero verification weight, the verified
candidate and its otherwise-identical unverified twin receive exactly equal
match scores, so the verified one is not strictly higher. -/
theorem verified_tie_counterexample :
    (calculate_match_score nearCandidate nearPreferences zeroVerifiedWeights).1 =
      (calculate_match_score { nearCandidate with is_verified := some false }
        nearPreferences zeroVerifiedWeights).1 := by
  simp only [calculate_match_score, UserProfile.verified, nearCandidate, nearPreferences,
    zeroVerifiedWeights]
  norm_num
  rfl

/-- Claim C6 (amended): with non-negative weights summing to at most 1 and a
strictly positive verification weight, a verified candidate scores strictly
higher than its otherwise-identical unverified twin. -/
theorem verified_scores_strictly_higher (p : UserProfile) (prefs : UserPreferences)
    (w : ScoringWeights) (hd : 0 ≤ w.distance) (ha : 0 ≤ w.age) (hs : 0 ≤ w.sports)
    (hv : 0 < w.verified) (hh : 0 ≤ w.height)
    (hsum : w.distance + w.age + w.sports + w.verified + w.height ≤ 1) :
    (calculate_match_score { p with is_verified := some false } prefs w).1 <
      (calculate_match_score { p with is_verified := some true } prefs w).1 := by
  have e : ∀ v : Bool, (calculate_match_score { p with is_verified := some v } prefs w).1 =
      max (min ((calculate_distance_score (haversine_distance prefs.latitude prefs.longitude
          p.latitude p.longitude) prefs.max_distance_km * w.distance +
        calculate_age_score p.age prefs.min_age prefs.max_age * w.age +
        (calculate_preference_score p prefs).1 * w.sports +
        (if v then (1:ℝ) else 0) * w.verified +
        calculate_height_score p.height_cm prefs.min_height_cm prefs.max_height_cm *
          w.height) * 100) 100) 0 := fun v => rfl
  rw [e true, e false]
  have hD0 := calculate_distance_score_nonneg (haversine_distance prefs.latitude
    prefs.longitude p.latitude p.longitude) prefs.max_distance_km
  have hD1 := calculate_distance_score_le_one (haversine_nonneg prefs.latitude
    prefs.longitude p.latitude p.longitude) prefs.max_distance_km
  have hA := calculate_age_score_bounds p.age prefs.min_age prefs.max_age
  have hP := calculate_preference_score_bounds p prefs
  have hH := calculate_height_score_bounds p.height_cm prefs.min_height_cm
    prefs.max_height_cm
  set D := calculate_distance_score (haversine_distance prefs.latitude
    prefs.longitude p.latitude p.longitude) prefs.max_distance_km with hD
  set A := calculate_age_score p.age prefs.min_age prefs.max_age with hA2
  set P := (calculate_preference_score p prefs).1 with hP2
  set H := calculate_height_score p.height_cm prefs.min_height_cm
    prefs.max_height_cm with hH2
  simp only [if_true, if_false, Bool.false_eq_true, one_mul, zero_mul]
  have hDw : D * w.distance ≤ w.distance := by nlinarith
  have hAw : A * w.age ≤ w.age := by nlinarith [hA.1, hA.2]
  have hPw : P * w.sports ≤ w.sports := by nlinarith [hP.1, hP.2]
  have hHw : H * w.height ≤ w.height := by nlinarith [hH.1, hH.2]
  have hDw0 : 0 ≤ D * w.distance := mul_nonneg hD0 hd
  have hAw0 : 0 ≤ A * w.age := mul_nonneg hA.1 ha
  have hPw0 : 0 ≤ P * w.sports := mul_nonneg hP.1 hs
  have hHw0 : 0 ≤ H * w.height := mul_nonneg hH.1 hh
  have hT1 : (D * w.distance + A * w.age + P * w.sports + w.verified + H * w.height) *
      100 ≤ 100 := by nlinarith
  have hT0le : (D * w.distance + A * w.age + P * w.sports + 0 + H * w.height) * 100 ≤
      (D * w.distance + A * w.age + P * w.sports + w.verified + H * w.height) * 100 := by
    nlinarith
  have hT00 : 0 ≤ (D * w.distance + A * w.age + P * w.sports + 0 + H * w.height) * 100 := by
    nlinarith
  rw [min_eq_left hT1, min_eq_left (le_trans hT0le hT1)]
  rw [max_eq_left (le_trans hT00 hT0le), max_eq_left hT00]
  nlinarith

/-- Witness for the amended C6 with the default weights at a concrete
candidate/preferences pair. -/
theorem verified_scores_strictly_higher_witness :
    (calculate_match_score { nearCandidate with is_verified := some false }
        nearPreferences ScoringWeights.default).1 <
      (calculate_match_score { nearCandidate with is_verified := some true }
        nearPreferences ScoringWeights.default).1 :=
  verified_scores_strictly_higher nearCandidate nearPreferences ScoringWeights.default
    (by norm_num [ScoringWeights.default]) (by norm_num [ScoringWeights.default])
    (by norm_num [ScoringWeights.default]) (by norm_num [ScoringWeights.default])
    (by norm_num [ScoringWeights.default]) (by norm_num [ScoringWeights.default])


/-- Witness for C10: at the concrete far-candidate input the single returned
entry is derived from the single input candidate with its fields unchanged. -/
theorem find_matches_entries_from_candidates_witness :
    ∃ p ∈ [farCandidate],
      (scoredMatchOf farPreferences ScoringWeights.default farCandidate).user_id =
        p.user_id ∧
      (scoredMatchOf farPreferences ScoringWeights.default farCandidate).name = p.name ∧
      (scoredMatchOf farPreferences ScoringWeights.default farCandidate).age = p.age ∧
      (scoredMatchOf farPreferences ScoringWeights.default farCandidate).height_cm =
        p.height_cm ∧
      (scoredMatchOf farPreferences ScoringWeights.default farCandidate).hair_color =
        p.hair_color ∧
      (scoredMatchOf farPreferences ScoringWeights.default farCandidate).gender =
        p.gender ∧
      (scoredMatchOf farPreferences ScoringWeights.default farCandidate).image_file_ids =
        p.image_file_ids ∧
      (scoredMatchOf farPreferences ScoringWeights.default farCandidate).description =
        p.description :=
  find_matches_entries_from_candidates (Matcher.mk ScoringWeights.default) farPreferences
    [farCandidate] 10 (scoredMatchOf farPreferences ScoringWeights.default farCandidate)
    (by rw [far_pipeline]; exact List.mem_singleton.mpr rfl)

end
